import Mathlib

/-!
Verification of the weekly financial ledger and reporting engine of the
fleet-manager repository.

The embedding below translates the relevant backend code:

* the POST /api/weekly-data handler of the Prisma route file
  (validator chain, vehicle lookup, derived-field computation,
  create/update upsert);
* the Mongoose WeeklyData schema (field bounds, the pre-save hook that
  recomputes totals) together with the Mongoose save pipeline, in which
  schema validation runs before user pre-save hooks;
* the GET /api/dashboard/stats handler (fleet sums, average margin,
  top performers);
* ExcelService.generateWeeklyReport (active-vehicle rows, totals row,
  summary block) and ExcelService.generateVehicleReport plus the
  GET /api/reports/vehicle-excel/:vehicleId route.

Monetary amounts are embedded as rationals, dates as integers (any
order-preserving encoding of timestamps), identifiers as strings.
-/

namespace FleetManager

/-- Lifecycle status of a vehicle, from the Vehicle model / Prisma enum
VehicleStatus (ACTIVE, INACTIVE, MAINTENANCE). -/
inductive VehicleStatus where
  | active
  | inactive
  | maintenance
deriving DecidableEq, Repr

/-- Vehicle master data, the fields the ledger and the report renderer read. -/
structure Vehicle where
  id : String
  vehicleNumber : String
  driverName : String
  phoneNumber : String
  status : VehicleStatus
deriving DecidableEq, Repr

/-- A stored WeeklyData row, following the Prisma WeeklyData table and the
Mongoose IWeeklyData interface. -/
structure WeeklyDataRecord where
  id : Nat
  vehicleId : String
  weekStartDate : Int
  weekEndDate : Int
  cashCollected : ℚ
  onlineEarnings : ℚ
  totalRevenue : ℚ
  dieselExpense : ℚ
  tollsParking : ℚ
  maintenanceRepairs : ℚ
  otherExpenses : ℚ
  totalDeductions : ℚ
  netProfit : ℚ
  profitMargin : ℚ
  totalTrips : Option ℚ
  totalDistance : Option ℚ
  averageRating : Option ℚ
  notes : Option String
  submittedBy : Option String
  submittedAt : Int
deriving DecidableEq, Repr

/-- The request body of POST /api/weekly-data as destructured by the handler.
The four body* fields model derived values that a caller may put in the JSON
body: the handler destructures only the raw fields, so these are never read. -/
structure WeeklyDataRequest where
  vehicleId : String
  weekStartDate : Int
  weekEndDate : Int
  cashCollected : ℚ
  onlineEarnings : ℚ
  dieselExpense : ℚ
  tollsParking : ℚ
  maintenanceRepairs : ℚ
  otherExpenses : ℚ
  totalTrips : Option ℚ := none
  totalDistance : Option ℚ := none
  averageRating : Option ℚ := none
  notes : Option String := none
  bodyTotalRevenue : Option ℚ := none
  bodyTotalDeductions : Option ℚ := none
  bodyNetProfit : Option ℚ := none
  bodyProfitMargin : Option ℚ := none
deriving DecidableEq, Repr

/-- Outcome of the POST /api/weekly-data handler: 400 on validator errors,
404 when the vehicle does not resolve, 200 with the updated row, 201 with
the created row. -/
inductive PostWeeklyDataResult where
  | badRequest
  | notFoundVehicle
  | updated (entry : WeeklyDataRecord)
  | created (entry : WeeklyDataRecord)
deriving DecidableEq, Repr

/-- The express-validator chain of the route: notEmpty on vehicleId,
isISO8601 on the two dates, isNumeric on the six monetary fields.  In this
typed embedding the dates and amounts are already well formed numbers, which
isISO8601 and isNumeric accept (isNumeric accepts negative numbers); the
only check with content left is notEmpty on vehicleId. -/
def validateWeeklyDataBody (req : WeeklyDataRequest) : Bool :=
  req.vehicleId != ""

/-- totalRevenue = cashCollected + onlineEarnings, from the handler
(and identically from the Mongoose pre-save hook). -/
def derivedTotalRevenue (req : WeeklyDataRequest) : ℚ :=
  req.cashCollected + req.onlineEarnings

/-- totalDeductions = dieselExpense + tollsParking + maintenanceRepairs +
otherExpenses. -/
def derivedTotalDeductions (req : WeeklyDataRequest) : ℚ :=
  req.dieselExpense + req.tollsParking + req.maintenanceRepairs + req.otherExpenses

/-- netProfit = totalRevenue - totalDeductions. -/
def derivedNetProfit (req : WeeklyDataRequest) : ℚ :=
  derivedTotalRevenue req - derivedTotalDeductions req

/-- profitMargin = totalRevenue > 0 ? (netProfit / totalRevenue) * 100 : 0. -/
def derivedProfitMargin (req : WeeklyDataRequest) : ℚ :=
  if 0 < derivedTotalRevenue req then
    derivedNetProfit req / derivedTotalRevenue req * 100
  else 0

/-- Conditional spread in the Prisma update call:
...(field !== undefined && \x7b field \x7d) keeps the previous value when the
request omits the field. -/
def optUpdate (prev incoming : Option α) : Option α :=
  match incoming with
  | some v => some v
  | none => prev

/-- The row written by prisma.weeklyData.create in the handler. -/
def createdEntry (req : WeeklyDataRequest) (userId : Option String) (now : Int)
    (freshId : Nat) : WeeklyDataRecord :=
  { id := freshId
    vehicleId := req.vehicleId
    weekStartDate := req.weekStartDate
    weekEndDate := req.weekEndDate
    cashCollected := req.cashCollected
    onlineEarnings := req.onlineEarnings
    totalRevenue := derivedTotalRevenue req
    dieselExpense := req.dieselExpense
    tollsParking := req.tollsParking
    maintenanceRepairs := req.maintenanceRepairs
    otherExpenses := req.otherExpenses
    totalDeductions := derivedTotalDeductions req
    netProfit := derivedNetProfit req
    profitMargin := derivedProfitMargin req
    totalTrips := req.totalTrips
    totalDistance := req.totalDistance
    averageRating := req.averageRating
    notes := req.notes
    submittedBy := userId
    submittedAt := now }

/-- The row written by prisma.weeklyData.update in the handler: every raw and
derived field is overwritten, the optional metrics and notes only when the
request supplies them, and provenance is refreshed. -/
def updatedEntry (existing : WeeklyDataRecord) (req : WeeklyDataRequest)
    (userId : Option String) (now : Int) : WeeklyDataRecord :=
  { existing with
    weekEndDate := req.weekEndDate
    cashCollected := req.cashCollected
    onlineEarnings := req.onlineEarnings
    totalRevenue := derivedTotalRevenue req
    dieselExpense := req.dieselExpense
    tollsParking := req.tollsParking
    maintenanceRepairs := req.maintenanceRepairs
    otherExpenses := req.otherExpenses
    totalDeductions := derivedTotalDeductions req
    netProfit := derivedNetProfit req
    profitMargin := derivedProfitMargin req
    totalTrips := optUpdate existing.totalTrips req.totalTrips
    totalDistance := optUpdate existing.totalDistance req.totalDistance
    averageRating := optUpdate existing.averageRating req.averageRating
    notes := optUpdate existing.notes req.notes
    submittedBy := userId
    submittedAt := now }

/-- prisma.vehicle.findUnique on the id. -/
def findVehicle (vehicles : List Vehicle) (vid : String) : Option Vehicle :=
  vehicles.find? (fun v => v.id == vid)

/-- prisma.weeklyData.findFirst on (vehicleId, weekStartDate). -/
def findExisting (store : List WeeklyDataRecord) (vid : String) (ws : Int) :
    Option WeeklyDataRecord :=
  store.find? (fun d => d.vehicleId == vid && d.weekStartDate == ws)

/-- The POST /api/weekly-data handler (Prisma route file): run the validator
chain, resolve the vehicle, compute the derived fields from the six raw
inputs, then update the existing (vehicleId, weekStartDate) row if there is
one and insert a new row otherwise. -/
def postWeeklyData (vehicles : List Vehicle) (store : List WeeklyDataRecord)
    (req : WeeklyDataRequest) (userId : Option String) (now : Int)
    (freshId : Nat) : PostWeeklyDataResult × List WeeklyDataRecord :=
  if validateWeeklyDataBody req then
    match findVehicle vehicles req.vehicleId with
    | none => (.notFoundVehicle, store)
    | some _ =>
      match findExisting store req.vehicleId req.weekStartDate with
      | some existing =>
        (.updated (updatedEntry existing req userId now),
         store.map (fun d =>
           if d.id == existing.id then updatedEntry existing req userId now else d))
      | none =>
        (.created (createdEntry req userId now freshId),
         store ++ [createdEntry req userId now freshId])
  else (.badRequest, store)

/-! The Mongoose layer: the WeeklyData schema with its field bounds and the
pre-save hook, and the save pipeline of the Mongoose route file. -/

/-- A Mongoose WeeklyData document. -/
structure MongooseWeeklyDoc where
  vehicleId : String
  weekStartDate : Int
  weekEndDate : Int
  cashCollected : ℚ
  onlineEarnings : ℚ
  totalRevenue : ℚ
  dieselExpense : ℚ
  tollsParking : ℚ
  maintenanceRepairs : ℚ
  otherExpenses : ℚ
  totalDeductions : ℚ
  netProfit : ℚ
  profitMargin : ℚ
  totalTrips : Option ℚ
  totalDistance : Option ℚ
  averageRating : Option ℚ
  notes : Option String
  submittedBy : Option String
  submittedAt : Option Int
deriving DecidableEq, Repr

/-- new WeeklyData(\x7b ... \x7d) in the Mongoose route: the raw fields come
from the body, the derived fields take their schema defaults (0). -/
def newMongooseDoc (req : WeeklyDataRequest) (userId : Option String)
    (now : Int) : MongooseWeeklyDoc :=
  { vehicleId := req.vehicleId
    weekStartDate := req.weekStartDate
    weekEndDate := req.weekEndDate
    cashCollected := req.cashCollected
    onlineEarnings := req.onlineEarnings
    totalRevenue := 0
    dieselExpense := req.dieselExpense
    tollsParking := req.tollsParking
    maintenanceRepairs := req.maintenanceRepairs
    otherExpenses := req.otherExpenses
    totalDeductions := 0
    netProfit := 0
    profitMargin := 0
    totalTrips := req.totalTrips
    totalDistance := req.totalDistance
    averageRating := req.averageRating
    notes := req.notes
    submittedBy := userId
    submittedAt := some now }

/-- Schema validation of the WeeklyData schema: min 0 on the six raw
monetary fields and on totalRevenue and totalDeductions, profitMargin within
[-100, 100], totalTrips and totalDistance at least 0 and averageRating in
[0, 5] when present. -/
def validateWeeklyDoc (d : MongooseWeeklyDoc) : Prop :=
  0 ≤ d.cashCollected ∧ 0 ≤ d.onlineEarnings ∧ 0 ≤ d.totalRevenue ∧
  0 ≤ d.dieselExpense ∧ 0 ≤ d.tollsParking ∧ 0 ≤ d.maintenanceRepairs ∧
  0 ≤ d.otherExpenses ∧ 0 ≤ d.totalDeductions ∧
  -100 ≤ d.profitMargin ∧ d.profitMargin ≤ 100 ∧
  (∀ v ∈ d.totalTrips, 0 ≤ v) ∧
  (∀ v ∈ d.totalDistance, 0 ≤ v) ∧
  (∀ v ∈ d.averageRating, 0 ≤ v ∧ v ≤ 5)

instance : DecidablePred validateWeeklyDoc := fun d => by
  unfold validateWeeklyDoc; infer_instance

/-- The pre-save hook of the WeeklyData schema: recompute totalRevenue,
totalDeductions, netProfit and profitMargin from the six raw fields. -/
def preSaveCompute (d : MongooseWeeklyDoc) : MongooseWeeklyDoc :=
  let totalRevenue := d.cashCollected + d.onlineEarnings
  let totalDeductions :=
    d.dieselExpense + d.tollsParking + d.maintenanceRepairs + d.otherExpenses
  let netProfit := totalRevenue - totalDeductions
  { d with
    totalRevenue := totalRevenue
    totalDeductions := totalDeductions
    netProfit := netProfit
    profitMargin :=
      if 0 < totalRevenue then netProfit / totalRevenue * 100 else 0 }

/-- Saving a new Mongoose document.  Mongoose middleware order on save runs
schema validation first (validation is a built-in pre-save step registered
ahead of user hooks, so every validate hook completes before any user
pre-save hook); the totals hook therefore runs only after the document has
already been validated, and its output is written without another
validation pass. -/
def mongooseSaveNew (store : List MongooseWeeklyDoc) (d : MongooseWeeklyDoc) :
    Except String (MongooseWeeklyDoc × List MongooseWeeklyDoc) :=
  if validateWeeklyDoc d then
    .ok (preSaveCompute d, store ++ [preSaveCompute d])
  else .error "ValidationError"

/-! The dashboard aggregation, from the GET /api/dashboard/stats handler. -/

/-- Entries whose weekStartDate is at least the window start and whose
weekEndDate is at most the window end, the filter shared by the stats
handler and the weekly report. -/
def entriesInWindow (store : List WeeklyDataRecord) (startDate endDate : Int) :
    List WeeklyDataRecord :=
  store.filter (fun d => startDate ≤ d.weekStartDate && d.weekEndDate ≤ endDate)

/-- A top-performers item (vehicle join reduced to the reference plus the
profit the handler emits). -/
structure TopPerformer where
  vehicleId : String
  profit : ℚ
deriving DecidableEq, Repr

/-- The JSON of GET /api/dashboard/stats. -/
structure DashboardStats where
  totalVehicles : Nat
  activeVehicles : Nat
  weeklyRevenue : ℚ
  weeklyProfit : ℚ
  totalDeductions : ℚ
  averageProfitMargin : ℚ
  topPerformers : List TopPerformer
deriving DecidableEq, Repr

/-- The GET /api/dashboard/stats handler: count vehicles, sum totalRevenue,
netProfit and totalDeductions over the entries in the window with a running
fold, compute the average margin from the summed values, and rank the
matching entries by netProfit descending, keeping the first five. -/
def getDashboardStats (vehicles : List Vehicle) (store : List WeeklyDataRecord)
    (startDate endDate : Int) : DashboardStats :=
  let weeklyData := entriesInWindow store startDate endDate
  let weeklyRevenue := weeklyData.foldl (fun acc d => acc + d.totalRevenue) (0 : ℚ)
  let weeklyProfit := weeklyData.foldl (fun acc d => acc + d.netProfit) (0 : ℚ)
  let deductions := weeklyData.foldl (fun acc d => acc + d.totalDeductions) (0 : ℚ)
  let averageProfitMargin :=
    if 0 < weeklyRevenue then weeklyProfit / weeklyRevenue * 100 else 0
  let ranked := weeklyData.mergeSort (fun a b => decide (b.netProfit ≤ a.netProfit))
  { totalVehicles := vehicles.length
    activeVehicles := (vehicles.filter (fun v => v.status == .active)).length
    weeklyRevenue := weeklyRevenue
    weeklyProfit := weeklyProfit
    totalDeductions := deductions
    averageProfitMargin := averageProfitMargin
    topPerformers :=
      (ranked.take 5).map (fun d => { vehicleId := d.vehicleId, profit := d.netProfit }) }

/-! The weekly fleet report, from ExcelService.generateWeeklyReport. -/

/-- One data row of the weekly fleet report (columns 1 to 14 of the sheet). -/
structure ReportRow where
  vehicleNumber : String
  driverName : String
  phoneNumber : String
  cashCollected : ℚ
  onlineEarnings : ℚ
  totalRevenue : ℚ
  dieselExpense : ℚ
  tollsParking : ℚ
  maintenanceRepairs : ℚ
  otherExpenses : ℚ
  totalDeductions : ℚ
  netProfit : ℚ
  profitMargin : ℚ
  notes : String
deriving DecidableEq, Repr

/-- The running totals the renderer accumulates while it walks the vehicles. -/
structure RunningTotals where
  cashCollected : ℚ
  onlineEarnings : ℚ
  totalRevenue : ℚ
  dieselExpense : ℚ
  tollsParking : ℚ
  maintenanceRepairs : ℚ
  otherExpenses : ℚ
  totalDeductions : ℚ
  netProfit : ℚ
deriving DecidableEq, Repr

/-- All running totals start at 0. -/
def zeroTotals : RunningTotals :=
  { cashCollected := 0, onlineEarnings := 0, totalRevenue := 0
    dieselExpense := 0, tollsParking := 0, maintenanceRepairs := 0
    otherExpenses := 0, totalDeductions := 0, netProfit := 0 }

/-- The totals row of the report: the accumulated sums plus the recomputed
overall profit margin. -/
structure TotalsRow where
  sums : RunningTotals
  overallProfitMargin : ℚ
deriving DecidableEq, Repr

/-- The summary block under the table. -/
structure SummaryBlock where
  totalVehicles : Nat
  totalRevenue : ℚ
  totalDeductions : ℚ
  totalNetProfit : ℚ
  averageProfitMargin : ℚ
deriving DecidableEq, Repr

/-- The content of the generated weekly workbook that the claims are about:
the data rows, the totals row and the summary block. -/
structure WeeklyReport where
  rows : List ReportRow
  totals : TotalsRow
  summary : SummaryBlock
deriving DecidableEq, Repr

/-- The dataMap of the renderer: a Map built with set keyed on vehicleId, so
a later entry for the same vehicle overwrites an earlier one. -/
def dataMapLookup (dataList : List WeeklyDataRecord) (vid : String) :
    Option WeeklyDataRecord :=
  dataList.foldl (fun acc d => if d.vehicleId == vid then some d else acc) none

/-- One data row of the report for a vehicle: the matching entry when the map
has one, with data?.field || 0 and data?.notes || two-character empty string
collapsing a missing entry to zeros and a blank note. -/
def makeReportRow (dataList : List WeeklyDataRecord) (v : Vehicle) : ReportRow :=
  match dataMapLookup dataList v.id with
  | some d =>
    { vehicleNumber := v.vehicleNumber
      driverName := v.driverName
      phoneNumber := v.phoneNumber
      cashCollected := d.cashCollected
      onlineEarnings := d.onlineEarnings
      totalRevenue := d.totalRevenue
      dieselExpense := d.dieselExpense
      tollsParking := d.tollsParking
      maintenanceRepairs := d.maintenanceRepairs
      otherExpenses := d.otherExpenses
      totalDeductions := d.totalDeductions
      netProfit := d.netProfit
      profitMargin := d.profitMargin
      notes := d.notes.getD "" }
  | none =>
    { vehicleNumber := v.vehicleNumber
      driverName := v.driverName
      phoneNumber := v.phoneNumber
      cashCollected := 0
      onlineEarnings := 0
      totalRevenue := 0
      dieselExpense := 0
      tollsParking := 0
      maintenanceRepairs := 0
      otherExpenses := 0
      totalDeductions := 0
      netProfit := 0
      profitMargin := 0
      notes := "" }

/-- The totals update of the renderer loop: only executed when the vehicle
has a matching entry (if (data) \x7b totalCash += ... \x7d). -/
def accumTotals (dataList : List WeeklyDataRecord) (acc : RunningTotals)
    (v : Vehicle) : RunningTotals :=
  match dataMapLookup dataList v.id with
  | some d =>
    { cashCollected := acc.cashCollected + d.cashCollected
      onlineEarnings := acc.onlineEarnings + d.onlineEarnings
      totalRevenue := acc.totalRevenue + d.totalRevenue
      dieselExpense := acc.dieselExpense + d.dieselExpense
      tollsParking := acc.tollsParking + d.tollsParking
      maintenanceRepairs := acc.maintenanceRepairs + d.maintenanceRepairs
      otherExpenses := acc.otherExpenses + d.otherExpenses
      totalDeductions := acc.totalDeductions + d.totalDeductions
      netProfit := acc.netProfit + d.netProfit }
  | none => acc

/-- The vehicle query of the weekly report: the vehicles with status ACTIVE,
ordered by vehicleNumber ascending. -/
def activeRoster (vehicles : List Vehicle) : List Vehicle :=
  (vehicles.filter (fun v => v.status == .active)).mergeSort
    (fun a b => decide (a.vehicleNumber ≤ b.vehicleNumber))

/-- The running totals after the renderer has walked the whole vehicle list. -/
def reportTotals (dataList : List WeeklyDataRecord) (vs : List Vehicle) :
    RunningTotals :=
  vs.foldl (accumTotals dataList) zeroTotals

/-- ExcelService.generateWeeklyReport: fetch the vehicles with status ACTIVE
ordered by vehicleNumber, fetch the entries in the window, emit one row per
active vehicle, accumulate the totals while walking the same list, recompute
the overall margin from the summed values, and emit the summary block.  The
date normalization done upstream with startOfWeek and endOfWeek is reflected
by taking the window bounds as parameters. -/
def generateWeeklyReport (vehicles : List Vehicle)
    (store : List WeeklyDataRecord) (weekStart weekEnd : Int) : WeeklyReport :=
  let dataList := entriesInWindow store weekStart weekEnd
  let t := reportTotals dataList (activeRoster vehicles)
  let overallProfitMargin :=
    if 0 < t.totalRevenue then t.netProfit / t.totalRevenue * 100 else 0
  { rows := (activeRoster vehicles).map (makeReportRow dataList)
    totals := { sums := t, overallProfitMargin := overallProfitMargin }
    summary :=
      { totalVehicles := (activeRoster vehicles).length
        totalRevenue := t.totalRevenue
        totalDeductions := t.totalDeductions
        totalNetProfit := t.netProfit
        averageProfitMargin := overallProfitMargin } }

/-! The single-vehicle report, from ExcelService.generateVehicleReport and
its route. -/

/-- One data row of the single-vehicle report. -/
structure VehicleReportRow where
  weekStartDate : Int
  totalRevenue : ℚ
  totalDeductions : ℚ
  netProfit : ℚ
  profitMargin : ℚ
  notes : String
deriving DecidableEq, Repr

/-- The content of the single-vehicle workbook. -/
structure VehicleReport where
  vehicleNumber : String
  driverName : String
  phoneNumber : String
  startDate : Int
  endDate : Int
  rows : List VehicleReportRow
deriving DecidableEq, Repr

/-- ExcelService.generateVehicleReport: resolve the vehicle, throwing
Error(Vehicle not found) when it does not exist, then list the entries of
that vehicle in [startDate, endDate] ordered by weekStartDate ascending and
emit one row per entry.  The error return models the throw: no workbook
value is produced on it. -/
def generateVehicleReport (vehicles : List Vehicle)
    (store : List WeeklyDataRecord) (vehicleId : String)
    (startDate endDate : Int) : Except String VehicleReport :=
  match findVehicle vehicles vehicleId with
  | none => .error "Vehicle not found"
  | some v =>
    let weeklyData :=
      (store.filter (fun d =>
        d.vehicleId == vehicleId && startDate ≤ d.weekStartDate &&
          d.weekEndDate ≤ endDate)).mergeSort
        (fun a b => decide (a.weekStartDate ≤ b.weekStartDate))
    .ok
      { vehicleNumber := v.vehicleNumber
        driverName := v.driverName
        phoneNumber := v.phoneNumber
        startDate := startDate
        endDate := endDate
        rows := weeklyData.map (fun d =>
          { weekStartDate := d.weekStartDate
            totalRevenue := d.totalRevenue
            totalDeductions := d.totalDeductions
            netProfit := d.netProfit
            profitMargin := d.profitMargin
            notes := d.notes.getD "" }) }

/-- HTTP outcome of the report routes. -/
inductive HttpReportResponse where
  | okBytes (report : VehicleReport)
  | badRequest (message : String)
  | notFound (message : String)
  | serverError (message : String)
deriving DecidableEq, Repr

/-- Whether a response is the typed not-found outcome (status 404). -/
def isNotFoundResponse : HttpReportResponse → Bool
  | .notFound _ => true
  | _ => false

/-- Whether a response carries report bytes (status 200 with the buffer). -/
def isOkBytesResponse : HttpReportResponse → Bool
  | .okBytes _ => true
  | _ => false

/-- The GET /api/reports/vehicle-excel/:vehicleId handler: 400 when either
date is missing, otherwise call the service inside try/catch; any thrown
error is answered with a 500 generic failure message. -/
def vehicleExcelRoute (vehicles : List Vehicle) (store : List WeeklyDataRecord)
    (vehicleId : String) (startDate endDate : Option Int) : HttpReportResponse :=
  match startDate, endDate with
  | some s, some e =>
    match generateVehicleReport vehicles store vehicleId s e with
    | .ok r => .okBytes r
    | .error _ => .serverError "Failed to generate vehicle report"
  | _, _ => .badRequest "Start date and end date are required"

/-! Concrete fixtures used by the witnesses and counterexamples below. -/

/-- An active vehicle fixture. -/
def vehicleFix : Vehicle :=
  { id := "veh-1", vehicleNumber := "ABC123", driverName := "Driver One",
    phoneNumber := "555-0001", status := .active }

/-- The end-to-end example of the spec: cash 5000, online 3000, diesel 2000,
tolls 500, maintenance 300, other 200. -/
def reqExample : WeeklyDataRequest :=
  { vehicleId := "veh-1", weekStartDate := 0, weekEndDate := 6,
    cashCollected := 5000, onlineEarnings := 3000, dieselExpense := 2000,
    tollsParking := 500, maintenanceRepairs := 300, otherExpenses := 200 }

/-- First submission for (veh-1, week 100): carries a note and a trip count. -/
def reqA : WeeklyDataRequest :=
  { vehicleId := "veh-1", weekStartDate := 100, weekEndDate := 106,
    cashCollected := 1000, onlineEarnings := 200, dieselExpense := 50,
    tollsParking := 20, maintenanceRepairs := 10, otherExpenses := 5,
    totalTrips := some 40, notes := some "first note" }

/-- Second submission for the same (veh-1, week 100): different raw amounts,
no note and no trip count in the body. -/
def reqB : WeeklyDataRequest :=
  { vehicleId := "veh-1", weekStartDate := 100, weekEndDate := 106,
    cashCollected := 2000, onlineEarnings := 100, dieselExpense := 60,
    tollsParking := 25, maintenanceRepairs := 15, otherExpenses := 10 }

/-- A stored entry with revenue 1000 and profit 500 (margin 50). -/
def recHighMargin : WeeklyDataRecord :=
  { id := 11, vehicleId := "veh-1", weekStartDate := 0, weekEndDate := 6,
    cashCollected := 1000, onlineEarnings := 0, totalRevenue := 1000,
    dieselExpense := 500, tollsParking := 0, maintenanceRepairs := 0,
    otherExpenses := 0, totalDeductions := 500, netProfit := 500,
    profitMargin := 50, totalTrips := none, totalDistance := none,
    averageRating := none, notes := none, submittedBy := none,
    submittedAt := 0 }

/-- A stored entry with revenue 4000 and profit -2000 (margin -50). -/
def recLowMargin : WeeklyDataRecord :=
  { id := 12, vehicleId := "veh-2", weekStartDate := 0, weekEndDate := 6,
    cashCollected := 4000, onlineEarnings := 0, totalRevenue := 4000,
    dieselExpense := 6000, tollsParking := 0, maintenanceRepairs := 0,
    otherExpenses := 0, totalDeductions := 6000, netProfit := -2000,
    profitMargin := -50, totalTrips := none, totalDistance := none,
    averageRating := none, notes := none, submittedBy := none,
    submittedAt := 0 }

/-- The asymmetric pair of the spec that distinguishes the ratio of sums
from the mean of per-vehicle margins. -/
def statsPair : List WeeklyDataRecord := [recHighMargin, recLowMargin]

/-- A request with a negative monetary input (cash collected -5). -/
def reqNegative : WeeklyDataRequest :=
  { vehicleId := "veh-1", weekStartDate := 0, weekEndDate := 6,
    cashCollected := -5, onlineEarnings := 0, dieselExpense := 0,
    tollsParking := 0, maintenanceRepairs := 0, otherExpenses := 0 }

/-- A request whose weekEndDate (50) precedes its weekStartDate (100). -/
def reqBackwards : WeeklyDataRequest :=
  { vehicleId := "veh-1", weekStartDate := 100, weekEndDate := 50,
    cashCollected := 10, onlineEarnings := 0, dieselExpense := 0,
    tollsParking := 0, maintenanceRepairs := 0, otherExpenses := 0 }

/-- A heavy-loss week: revenue 100, deductions 300, so the recomputed margin
is -200, outside the [-100, 100] bounds of the schema. -/
def reqLoss : WeeklyDataRequest :=
  { vehicleId := "veh-1", weekStartDate := 0, weekEndDate := 6,
    cashCollected := 100, onlineEarnings := 0, dieselExpense := 300,
    tollsParking := 0, maintenanceRepairs := 0, otherExpenses := 0 }

/-! Helper lemmas. -/

/-- Inversion of an accepted upsert: an updated or created outcome comes from
the matching branch of the handler, with the stored list evolved accordingly. -/
theorem postWeeklyData_accepted_cases
    (vehicles : List Vehicle) (store : List WeeklyDataRecord)
    (req : WeeklyDataRequest) (userId : Option String) (now : Int)
    (freshId : Nat) (e : WeeklyDataRecord) (store' : List WeeklyDataRecord)
    (h : postWeeklyData vehicles store req userId now freshId
            = (.updated e, store') ∨
         postWeeklyData vehicles store req userId now freshId
            = (.created e, store')) :
    (∃ existing,
        findExisting store req.vehicleId req.weekStartDate = some existing ∧
        e = updatedEntry existing req userId now ∧
        store' = store.map (fun d => if d.id == existing.id then e else d)) ∨
    (findExisting store req.vehicleId req.weekStartDate = none ∧
        e = createdEntry req userId now freshId ∧ store' = store ++ [e]) := by
  unfold postWeeklyData at h
  by_cases hval : validateWeeklyDataBody req
  · rw [if_pos hval] at h
    cases hfv : findVehicle vehicles req.vehicleId with
    | none => rw [hfv] at h; rcases h with h | h <;> simp at h
    | some v =>
      rw [hfv] at h
      cases hfe : findExisting store req.vehicleId req.weekStartDate with
      | some existing =>
        rw [hfe] at h
        rcases h with h | h
        · obtain ⟨h1, h2⟩ := Prod.mk.injEq .. ▸ h
          injection h1 with h1
          exact Or.inl ⟨existing, rfl, h1.symm, by rw [← h2, h1]⟩
        · simp at h
      | none =>
        rw [hfe] at h
        rcases h with h | h
        · simp at h
        · obtain ⟨h1, h2⟩ := Prod.mk.injEq .. ▸ h
          injection h1 with h1
          exact Or.inr ⟨rfl, h1.symm, by rw [← h2, h1]⟩
  · rw [if_neg hval] at h
    rcases h with h | h <;> simp at h

/-- A running fold of additions equals the initial value plus the list sum. -/
theorem foldl_add_eq_sum (f : α → ℚ) (l : List α) (c : ℚ) :
    l.foldl (fun acc d => acc + f d) c = c + (l.map f).sum := by
  induction l generalizing c with
  | nil => simp
  | cons x xs ih => simp [ih, add_assoc]

/-- Generic accumulation lemma for the report totals: a projection that the
per-vehicle update advances by the corresponding row value accumulates to the
column sum over the rows. -/
theorem foldl_accum_field (dataList : List WeeklyDataRecord)
    (g : RunningTotals → ℚ) (p : ReportRow → ℚ)
    (hacc : ∀ acc v, g (accumTotals dataList acc v)
        = g acc + p (makeReportRow dataList v))
    (l : List Vehicle) (acc : RunningTotals) :
    g (l.foldl (accumTotals dataList) acc)
      = g acc + ((l.map (makeReportRow dataList)).map p).sum := by
  induction l generalizing acc with
  | nil => simp
  | cons v vs ih => simp [List.foldl_cons, ih, hacc, add_assoc]

/-! Claim theorems. -/

/-- C1: for every accepted weekly upsert, the stored entry derives
totalRevenue, totalDeductions and netProfit from the six raw monetary inputs
alone, and the handler result is invariant under any caller-supplied derived
values in the body. -/
theorem c1_derived_fields_recomputed_from_raw
    (vehicles : List Vehicle) (store : List WeeklyDataRecord)
    (req : WeeklyDataRequest) (userId : Option String) (now : Int)
    (freshId : Nat) (e : WeeklyDataRecord) (store' : List WeeklyDataRecord)
    (h : postWeeklyData vehicles store req userId now freshId
            = (.updated e, store') ∨
         postWeeklyData vehicles store req userId now freshId
            = (.created e, store')) :
    e ∈ store' ∧
    e.totalRevenue = req.cashCollected + req.onlineEarnings ∧
    e.totalDeductions
      = req.dieselExpense + req.tollsParking + req.maintenanceRepairs
        + req.otherExpenses ∧
    e.netProfit = e.totalRevenue - e.totalDeductions ∧
    (∀ a b c d : Option ℚ,
      postWeeklyData vehicles store
        { req with bodyTotalRevenue := a, bodyTotalDeductions := b,
                   bodyNetProfit := c, bodyProfitMargin := d }
        userId now freshId
        = postWeeklyData vehicles store req userId now freshId) := by
  have hinv : ∀ a b c d : Option ℚ,
      postWeeklyData vehicles store
        { req with bodyTotalRevenue := a, bodyTotalDeductions := b,
                   bodyNetProfit := c, bodyProfitMargin := d }
        userId now freshId
        = postWeeklyData vehicles store req userId now freshId := by
    intro a b c d
    cases req
    rfl
  rcases postWeeklyData_accepted_cases vehicles store req userId now freshId
      e store' h with ⟨existing, hfe, he, hs⟩ | ⟨hfe, he, hs⟩
  · subst he; subst hs
    refine ⟨?_, rfl, rfl, rfl, hinv⟩
    have hmem := List.mem_map_of_mem
      (fun d => if d.id == existing.id then updatedEntry existing req userId now else d)
      (List.mem_of_find?_eq_some hfe)
    simpa using hmem
  · subst he; subst hs
    exact ⟨List.mem_append_right store (List.mem_singleton.mpr rfl), rfl, rfl, rfl, hinv⟩

/-- Witness for C1, at the end-to-end example input of the spec. -/
theorem c1_witness :
    (createdEntry reqExample (some "manager-1") 7 1).totalRevenue
      = reqExample.cashCollected + reqExample.onlineEarnings ∧
    (createdEntry reqExample (some "manager-1") 7 1).netProfit
      = (createdEntry reqExample (some "manager-1") 7 1).totalRevenue
        - (createdEntry reqExample (some "manager-1") 7 1).totalDeductions ∧
    createdEntry reqExample (some "manager-1") 7 1
      ∈ [createdEntry reqExample (some "manager-1") 7 1] := by
  have h := c1_derived_fields_recomputed_from_raw [vehicleFix] [] reqExample
    (some "manager-1") 7 1 (createdEntry reqExample (some "manager-1") 7 1)
    ([] ++ [createdEntry reqExample (some "manager-1") 7 1]) (Or.inr rfl)
  exact ⟨h.2.1, h.2.2.2.1, h.1⟩

/-- C2: every entry stored by an accepted upsert has profitMargin equal to
netProfit / totalRevenue * 100 when totalRevenue is positive, and 0 when
totalRevenue is 0. -/
theorem c2_profit_margin_rule
    (vehicles : List Vehicle) (store : List WeeklyDataRecord)
    (req : WeeklyDataRequest) (userId : Option String) (now : Int)
    (freshId : Nat) (e : WeeklyDataRecord) (store' : List WeeklyDataRecord)
    (h : postWeeklyData vehicles store req userId now freshId
            = (.updated e, store') ∨
         postWeeklyData vehicles store req userId now freshId
            = (.created e, store')) :
    (0 < e.totalRevenue → e.profitMargin = e.netProfit / e.totalRevenue * 100) ∧
    (e.totalRevenue = 0 → e.profitMargin = 0) := by
  rcases postWeeklyData_accepted_cases vehicles store req userId now freshId
      e store' h with ⟨existing, hfe, he, hs⟩ | ⟨hfe, he, hs⟩ <;> subst he <;>
    constructor <;> intro h0
  · show derivedProfitMargin req
      = derivedNetProfit req / derivedTotalRevenue req * 100
    have h0 : 0 < derivedTotalRevenue req := h0
    rw [derivedProfitMargin, if_pos h0]
  · show derivedProfitMargin req = 0
    have h0 : derivedTotalRevenue req = 0 := h0
    simp [derivedProfitMargin, h0]
  · show derivedProfitMargin req
      = derivedNetProfit req / derivedTotalRevenue req * 100
    have h0 : 0 < derivedTotalRevenue req := h0
    rw [derivedProfitMargin, if_pos h0]
  · show derivedProfitMargin req = 0
    have h0 : derivedTotalRevenue req = 0 := h0
    simp [derivedProfitMargin, h0]

/-- Witness for C2: revenue 8000 with deductions 3000 yields margin 62.5. -/
theorem c2_witness :
    (createdEntry reqExample (some "manager-1") 7 1).totalRevenue = 8000 ∧
    (createdEntry reqExample (some "manager-1") 7 1).profitMargin = 125 / 2 := by
  have h := c2_profit_margin_rule [vehicleFix] [] reqExample
    (some "manager-1") 7 1 (createdEntry reqExample (some "manager-1") 7 1)
    ([] ++ [createdEntry reqExample (some "manager-1") 7 1]) (Or.inr rfl)
  have hrev : (createdEntry reqExample (some "manager-1") 7 1).totalRevenue = 8000 := by
    show derivedTotalRevenue reqExample = 8000
    norm_num [derivedTotalRevenue, reqExample]
  have hnp : (createdEntry reqExample (some "manager-1") 7 1).netProfit = 5000 := by
    show derivedNetProfit reqExample = 5000
    norm_num [derivedNetProfit, derivedTotalRevenue, derivedTotalDeductions, reqExample]
  refine ⟨hrev, ?_⟩
  have hm := h.1 (by rw [hrev]; norm_num)
  rw [hm, hrev, hnp]
  norm_num

/-- C3 as stated is false: after submitting A (with a note) and then B
(without one) for the same (vehicle, week-start), the single stored entry
keeps the note of A, so not all of its fields equal the submission B. -/
theorem c3_counterexample :
    ((postWeeklyData [vehicleFix]
        (postWeeklyData [vehicleFix] [] reqA (some "userA") 10 1).2
        reqB (some "userB") 20 2).2.map (fun e => e.notes))
      = [some "first note"] ∧
    reqB.notes = none ∧
    ((postWeeklyData [vehicleFix]
        (postWeeklyData [vehicleFix] [] reqA (some "userA") 10 1).2
        reqB (some "userB") 20 2).2.map (fun e => e.notes))
      ≠ [reqB.notes] := by
  refine ⟨rfl, rfl, ?_⟩
  show ([some "first note"] : List (Option String)) ≠ [none]
  decide

/-- C3 amended: submitting A then B for the same (vehicle, week-start) from
an empty store leaves exactly one stored entry; its raw and derived fields,
week-end date and provenance equal the submission B, while each optional
metric and the note equal the value of B when B supplies one and otherwise
retain the value of A. -/
theorem c3_upsert_overwrite_with_optional_merge
    (vehicles : List Vehicle) (v : Vehicle) (a b : WeeklyDataRequest)
    (u1 u2 : Option String) (t1 t2 : Int) (id1 id2 : Nat)
    (hid : a.vehicleId ≠ "")
    (hv : findVehicle vehicles a.vehicleId = some v)
    (hbv : b.vehicleId = a.vehicleId)
    (hbw : b.weekStartDate = a.weekStartDate) :
    postWeeklyData vehicles (postWeeklyData vehicles [] a u1 t1 id1).2
        b u2 t2 id2
      = (.updated (updatedEntry (createdEntry a u1 t1 id1) b u2 t2),
         [updatedEntry (createdEntry a u1 t1 id1) b u2 t2]) ∧
    (updatedEntry (createdEntry a u1 t1 id1) b u2 t2).vehicleId = a.vehicleId ∧
    (updatedEntry (createdEntry a u1 t1 id1) b u2 t2).weekStartDate
      = a.weekStartDate ∧
    (updatedEntry (createdEntry a u1 t1 id1) b u2 t2).weekEndDate
      = b.weekEndDate ∧
    (updatedEntry (createdEntry a u1 t1 id1) b u2 t2).cashCollected
      = b.cashCollected ∧
    (updatedEntry (createdEntry a u1 t1 id1) b u2 t2).onlineEarnings
      = b.onlineEarnings ∧
    (updatedEntry (createdEntry a u1 t1 id1) b u2 t2).dieselExpense
      = b.dieselExpense ∧
    (updatedEntry (createdEntry a u1 t1 id1) b u2 t2).tollsParking
      = b.tollsParking ∧
    (updatedEntry (createdEntry a u1 t1 id1) b u2 t2).maintenanceRepairs
      = b.maintenanceRepairs ∧
    (updatedEntry (createdEntry a u1 t1 id1) b u2 t2).otherExpenses
      = b.otherExpenses ∧
    (updatedEntry (createdEntry a u1 t1 id1) b u2 t2).totalRevenue
      = b.cashCollected + b.onlineEarnings ∧
    (updatedEntry (createdEntry a u1 t1 id1) b u2 t2).totalDeductions
      = b.dieselExpense + b.tollsParking + b.maintenanceRepairs
        + b.otherExpenses ∧
    (updatedEntry (createdEntry a u1 t1 id1) b u2 t2).netProfit
      = (b.cashCollected + b.onlineEarnings)
        - (b.dieselExpense + b.tollsParking + b.maintenanceRepairs
           + b.otherExpenses) ∧
    (updatedEntry (createdEntry a u1 t1 id1) b u2 t2).submittedBy = u2 ∧
    (updatedEntry (createdEntry a u1 t1 id1) b u2 t2).submittedAt = t2 ∧
    (updatedEntry (createdEntry a u1 t1 id1) b u2 t2).totalTrips
      = optUpdate a.totalTrips b.totalTrips ∧
    (updatedEntry (createdEntry a u1 t1 id1) b u2 t2).totalDistance
      = optUpdate a.totalDistance b.totalDistance ∧
    (updatedEntry (createdEntry a u1 t1 id1) b u2 t2).averageRating
      = optUpdate a.averageRating b.averageRating ∧
    (updatedEntry (createdEntry a u1 t1 id1) b u2 t2).notes
      = optUpdate a.notes b.notes := by
  have hval : validateWeeklyDataBody a = true := by
    simp [validateWeeklyDataBody, bne_iff_ne, hid]
  have h1 : postWeeklyData vehicles [] a u1 t1 id1
      = (.created (createdEntry a u1 t1 id1), [createdEntry a u1 t1 id1]) := by
    simp [postWeeklyData, hval, hv, findExisting]
  have hvalb : validateWeeklyDataBody b = true := by
    simp [validateWeeklyDataBody, bne_iff_ne, hbv, hid]
  have hvb : findVehicle vehicles b.vehicleId = some v := by
    rw [hbv]; exact hv
  have hkey : findExisting [createdEntry a u1 t1 id1] b.vehicleId b.weekStartDate
      = some (createdEntry a u1 t1 id1) := by
    simp [findExisting, List.find?, createdEntry, hbv, hbw]
  have h2 : postWeeklyData vehicles [createdEntry a u1 t1 id1] b u2 t2 id2
      = (.updated (updatedEntry (createdEntry a u1 t1 id1) b u2 t2),
         [updatedEntry (createdEntry a u1 t1 id1) b u2 t2]) := by
    simp [postWeeklyData, hvalb, hvb, hkey]
  refine ⟨?_, rfl, rfl, rfl, rfl, rfl, rfl, rfl, rfl, rfl, rfl, rfl, rfl,
    rfl, rfl, rfl, rfl, rfl, rfl⟩
  rw [h1]
  exact h2

/-- Witness for C3, at the fixture submissions A and B. -/
theorem c3_witness :
    postWeeklyData [vehicleFix]
        (postWeeklyData [vehicleFix] [] reqA (some "userA") 10 1).2
        reqB (some "userB") 20 2
      = (.updated (updatedEntry (createdEntry reqA (some "userA") 10 1)
           reqB (some "userB") 20),
         [updatedEntry (createdEntry reqA (some "userA") 10 1)
           reqB (some "userB") 20]) ∧
    (updatedEntry (createdEntry reqA (some "userA") 10 1)
        reqB (some "userB") 20).notes = optUpdate reqA.notes reqB.notes := by
  have h := c3_upsert_overwrite_with_optional_merge [vehicleFix] vehicleFix
    reqA reqB (some "userA") (some "userB") 10 20 1 2
    (by decide) rfl rfl rfl
  exact ⟨h.1, h.2.2.2.2.2.2.2.2.2.2.2.2.2.2.2.2.2.2⟩

/-- C4: the dashboard computes the fleet average margin as summed net profit
over summed revenue times 100 (0 when the summed revenue is 0), and on the
asymmetric pair of the spec this differs from the arithmetic mean of the
per-entry margins. -/
theorem c4_fleet_average_margin_from_sums
    (vehicles : List Vehicle) (store : List WeeklyDataRecord) (sd ed : Int) :
    ((0 < ((entriesInWindow store sd ed).map (fun d => d.totalRevenue)).sum →
       (getDashboardStats vehicles store sd ed).averageProfitMargin
         = ((entriesInWindow store sd ed).map (fun d => d.netProfit)).sum
           / ((entriesInWindow store sd ed).map (fun d => d.totalRevenue)).sum
           * 100) ∧
     (((entriesInWindow store sd ed).map (fun d => d.totalRevenue)).sum = 0 →
       (getDashboardStats vehicles store sd ed).averageProfitMargin = 0)) ∧
    ((getDashboardStats [] statsPair 0 10).averageProfitMargin = -30 ∧
     (statsPair.map (fun d => d.profitMargin)).sum / 2 = 0 ∧
     (getDashboardStats [] statsPair 0 10).averageProfitMargin
       ≠ (statsPair.map (fun d => d.profitMargin)).sum / 2) := by
  have hRev : (entriesInWindow store sd ed).foldl
        (fun acc d => acc + d.totalRevenue) (0 : ℚ)
      = ((entriesInWindow store sd ed).map (fun d => d.totalRevenue)).sum := by
    simpa using foldl_add_eq_sum (fun d => d.totalRevenue)
      (entriesInWindow store sd ed) 0
  have hProf : (entriesInWindow store sd ed).foldl
        (fun acc d => acc + d.netProfit) (0 : ℚ)
      = ((entriesInWindow store sd ed).map (fun d => d.netProfit)).sum := by
    simpa using foldl_add_eq_sum (fun d => d.netProfit)
      (entriesInWindow store sd ed) 0
  have hmargin : (getDashboardStats vehicles store sd ed).averageProfitMargin
      = if 0 < ((entriesInWindow store sd ed).map (fun d => d.totalRevenue)).sum
        then ((entriesInWindow store sd ed).map (fun d => d.netProfit)).sum
             / ((entriesInWindow store sd ed).map (fun d => d.totalRevenue)).sum
             * 100
        else 0 := by
    simp only [getDashboardStats]
    rw [hRev, hProf]
  refine ⟨⟨?_, ?_⟩, ?_, ?_, ?_⟩
  · intro h0; rw [hmargin, if_pos h0]
  · intro h0; rw [hmargin, h0]; simp
  · norm_num [getDashboardStats, entriesInWindow, statsPair,
      recHighMargin, recLowMargin]
  · norm_num [statsPair, recHighMargin, recLowMargin]
  · norm_num [getDashboardStats, entriesInWindow, statsPair,
      recHighMargin, recLowMargin]

/-- Witness for C4: an empty window has summed revenue 0 and average margin 0. -/
theorem c4_witness : (getDashboardStats [] [] 0 0).averageProfitMargin = 0 :=
  (c4_fleet_average_margin_from_sums [] [] 0 0).1.2 (by simp [entriesInWindow])

/-- C5: the weekly report has exactly one data row per active vehicle (its
row count is the active count, every active vehicle contributes its row, and
every row comes from an active vehicle), and a vehicle without a matching
entry gets a row with zero in every monetary cell and a blank note. -/
theorem c5_one_row_per_active_vehicle
    (vehicles : List Vehicle) (store : List WeeklyDataRecord) (ws we : Int) :
    (generateWeeklyReport vehicles store ws we).rows.length
      = (vehicles.filter (fun v => v.status == .active)).length ∧
    (∀ v ∈ vehicles, v.status = .active →
      makeReportRow (entriesInWindow store ws we) v
        ∈ (generateWeeklyReport vehicles store ws we).rows) ∧
    (∀ r ∈ (generateWeeklyReport vehicles store ws we).rows,
      ∃ v, v ∈ vehicles ∧ v.status = .active ∧
        r = makeReportRow (entriesInWindow store ws we) v) ∧
    (∀ v : Vehicle, dataMapLookup (entriesInWindow store ws we) v.id = none →
      (makeReportRow (entriesInWindow store ws we) v).cashCollected = 0 ∧
      (makeReportRow (entriesInWindow store ws we) v).onlineEarnings = 0 ∧
      (makeReportRow (entriesInWindow store ws we) v).totalRevenue = 0 ∧
      (makeReportRow (entriesInWindow store ws we) v).dieselExpense = 0 ∧
      (makeReportRow (entriesInWindow store ws we) v).tollsParking = 0 ∧
      (makeReportRow (entriesInWindow store ws we) v).maintenanceRepairs = 0 ∧
      (makeReportRow (entriesInWindow store ws we) v).otherExpenses = 0 ∧
      (makeReportRow (entriesInWindow store ws we) v).totalDeductions = 0 ∧
      (makeReportRow (entriesInWindow store ws we) v).netProfit = 0 ∧
      (makeReportRow (entriesInWindow store ws we) v).profitMargin = 0 ∧
      (makeReportRow (entriesInWindow store ws we) v).notes = "") := by
  have hrows : (generateWeeklyReport vehicles store ws we).rows
      = (activeRoster vehicles).map
          (makeReportRow (entriesInWindow store ws we)) := rfl
  refine ⟨?_, ?_, ?_, ?_⟩
  · rw [hrows, List.length_map, activeRoster, List.length_mergeSort]
  · intro v hv hstatus
    rw [hrows]
    apply List.mem_map_of_mem
    rw [activeRoster, List.mem_mergeSort, List.mem_filter]
    exact ⟨hv, by simp [hstatus]⟩
  · intro r hr
    rw [hrows] at hr
    obtain ⟨v, hv, rfl⟩ := List.mem_map.mp hr
    rw [activeRoster, List.mem_mergeSort, List.mem_filter] at hv
    exact ⟨v, hv.1, by simpa using hv.2, rfl⟩
  · intro v hnone
    simp [makeReportRow, hnone]

/-- Witness for C5: one active vehicle and an empty store give one data row,
which is all zeros with a blank note. -/
theorem c5_witness :
    (generateWeeklyReport [vehicleFix] [] 0 6).rows.length = 1 ∧
    makeReportRow (entriesInWindow [] 0 6) vehicleFix
      ∈ (generateWeeklyReport [vehicleFix] [] 0 6).rows ∧
    (makeReportRow (entriesInWindow [] 0 6) vehicleFix).cashCollected = 0 ∧
    (makeReportRow (entriesInWindow [] 0 6) vehicleFix).notes = "" := by
  have h := c5_one_row_per_active_vehicle [vehicleFix] [] 0 6
  refine ⟨?_, ?_, ?_, ?_⟩
  · rw [h.1]; rfl
  · exact h.2.1 vehicleFix (List.mem_singleton.mpr rfl) rfl
  · exact (h.2.2.2 vehicleFix rfl).1
  · exact (h.2.2.2 vehicleFix rfl).2.2.2.2.2.2.2.2.2.2

/-- C6: every monetary cell of the totals row equals the sum of that column
over all data rows (zero-filled rows included), and the totals-row margin is
recomputed from the summed profit and revenue, 0 when the summed revenue
is 0. -/
theorem c6_totals_row_sums_and_margin
    (vehicles : List Vehicle) (store : List WeeklyDataRecord) (ws we : Int)
    (rep : WeeklyReport)
    (hrep : rep = generateWeeklyReport vehicles store ws we) :
    rep.totals.sums.cashCollected
      = (rep.rows.map (fun r => r.cashCollected)).sum ∧
    rep.totals.sums.onlineEarnings
      = (rep.rows.map (fun r => r.onlineEarnings)).sum ∧
    rep.totals.sums.totalRevenue
      = (rep.rows.map (fun r => r.totalRevenue)).sum ∧
    rep.totals.sums.dieselExpense
      = (rep.rows.map (fun r => r.dieselExpense)).sum ∧
    rep.totals.sums.tollsParking
      = (rep.rows.map (fun r => r.tollsParking)).sum ∧
    rep.totals.sums.maintenanceRepairs
      = (rep.rows.map (fun r => r.maintenanceRepairs)).sum ∧
    rep.totals.sums.otherExpenses
      = (rep.rows.map (fun r => r.otherExpenses)).sum ∧
    rep.totals.sums.totalDeductions
      = (rep.rows.map (fun r => r.totalDeductions)).sum ∧
    rep.totals.sums.netProfit
      = (rep.rows.map (fun r => r.netProfit)).sum ∧
    (0 < rep.totals.sums.totalRevenue →
      rep.totals.overallProfitMargin
        = rep.totals.sums.netProfit / rep.totals.sums.totalRevenue * 100) ∧
    (rep.totals.sums.totalRevenue = 0 → rep.totals.overallProfitMargin = 0) := by
  subst hrep
  have key : ∀ (g : RunningTotals → ℚ) (p : ReportRow → ℚ),
      (∀ acc v, g (accumTotals (entriesInWindow store ws we) acc v)
          = g acc + p (makeReportRow (entriesInWindow store ws we) v)) →
      g zeroTotals = 0 →
      g (reportTotals (entriesInWindow store ws we) (activeRoster vehicles))
        = (((activeRoster vehicles).map
            (makeReportRow (entriesInWindow store ws we))).map p).sum := by
    intro g p hacc hzero
    rw [reportTotals, foldl_accum_field _ g p hacc, hzero, zero_add]
  have hm : (generateWeeklyReport vehicles store ws we).totals.overallProfitMargin
      = if 0 < (generateWeeklyReport vehicles store ws we).totals.sums.totalRevenue
        then (generateWeeklyReport vehicles store ws we).totals.sums.netProfit
             / (generateWeeklyReport vehicles store ws we).totals.sums.totalRevenue
             * 100
        else 0 := rfl
  refine ⟨?_, ?_, ?_, ?_, ?_, ?_, ?_, ?_, ?_, ?_, ?_⟩
  · exact key (fun t => t.cashCollected) (fun r => r.cashCollected)
      (fun acc v => by
        rcases hv : dataMapLookup (entriesInWindow store ws we) v.id with _ | d <;>
          simp [accumTotals, makeReportRow, hv]) rfl
  · exact key (fun t => t.onlineEarnings) (fun r => r.onlineEarnings)
      (fun acc v => by
        rcases hv : dataMapLookup (entriesInWindow store ws we) v.id with _ | d <;>
          simp [accumTotals, makeReportRow, hv]) rfl
  · exact key (fun t => t.totalRevenue) (fun r => r.totalRevenue)
      (fun acc v => by
        rcases hv : dataMapLookup (entriesInWindow store ws we) v.id with _ | d <;>
          simp [accumTotals, makeReportRow, hv]) rfl
  · exact key (fun t => t.dieselExpense) (fun r => r.dieselExpense)
      (fun acc v => by
        rcases hv : dataMapLookup (entriesInWindow store ws we) v.id with _ | d <;>
          simp [accumTotals, makeReportRow, hv]) rfl
  · exact key (fun t => t.tollsParking) (fun r => r.tollsParking)
      (fun acc v => by
        rcases hv : dataMapLookup (entriesInWindow store ws we) v.id with _ | d <;>
          simp [accumTotals, makeReportRow, hv]) rfl
  · exact key (fun t => t.maintenanceRepairs) (fun r => r.maintenanceRepairs)
      (fun acc v => by
        rcases hv : dataMapLookup (entriesInWindow store ws we) v.id with _ | d <;>
          simp [accumTotals, makeReportRow, hv]) rfl
  · exact key (fun t => t.otherExpenses) (fun r => r.otherExpenses)
      (fun acc v => by
        rcases hv : dataMapLookup (entriesInWindow store ws we) v.id with _ | d <;>
          simp [accumTotals, makeReportRow, hv]) rfl
  · exact key (fun t => t.totalDeductions) (fun r => r.totalDeductions)
      (fun acc v => by
        rcases hv : dataMapLookup (entriesInWindow store ws we) v.id with _ | d <;>
          simp [accumTotals, makeReportRow, hv]) rfl
  · exact key (fun t => t.netProfit) (fun r => r.netProfit)
      (fun acc v => by
        rcases hv : dataMapLookup (entriesInWindow store ws we) v.id with _ | d <;>
          simp [accumTotals, makeReportRow, hv]) rfl
  · intro h0; rw [hm, if_pos h0]
  · intro h0; rw [hm, h0]; simp

/-- Witness for C6: on an empty roster the summed revenue is 0 and the
totals-row margin is 0. -/
theorem c6_witness :
    (generateWeeklyReport [] [] 0 6).totals.overallProfitMargin = 0 := by
  have h := c6_totals_row_sums_and_margin [] [] 0 6
    (generateWeeklyReport [] [] 0 6) rfl
  exact h.2.2.2.2.2.2.2.2.2.2
    (by simp [generateWeeklyReport, reportTotals, activeRoster, zeroTotals])

/-- C7 as stated is false: for an unknown vehicle the route answers with the
generic 500 failure, not with the typed not-found outcome. -/
theorem c7_counterexample :
    vehicleExcelRoute [] [] "ghost" (some 0) (some 10)
      = .serverError "Failed to generate vehicle report" ∧
    isNotFoundResponse (vehicleExcelRoute [] [] "ghost" (some 0) (some 10))
      = false ∧
    isOkBytesResponse (vehicleExcelRoute [] [] "ghost" (some 0) (some 10))
      = false :=
  ⟨rfl, rfl, rfl⟩

/-- C7 amended: when the vehicle reference does not resolve, the service
fails with the thrown message Vehicle not found before any workbook value is
produced, and the route surfaces it as the generic 500 failure (never as the
typed not-found response, and never with report bytes). -/
theorem c7_unknown_vehicle_fails_generically
    (vehicles : List Vehicle) (store : List WeeklyDataRecord)
    (vid : String) (s e : Int)
    (h : findVehicle vehicles vid = none) :
    generateVehicleReport vehicles store vid s e = .error "Vehicle not found" ∧
    vehicleExcelRoute vehicles store vid (some s) (some e)
      = .serverError "Failed to generate vehicle report" ∧
    isNotFoundResponse (vehicleExcelRoute vehicles store vid (some s) (some e))
      = false ∧
    isOkBytesResponse (vehicleExcelRoute vehicles store vid (some s) (some e))
      = false := by
  have h1 : generateVehicleReport vehicles store vid s e
      = .error "Vehicle not found" := by
    simp [generateVehicleReport, h]
  have h2 : vehicleExcelRoute vehicles store vid (some s) (some e)
      = .serverError "Failed to generate vehicle report" := by
    simp [vehicleExcelRoute, h1]
  refine ⟨h1, h2, ?_, ?_⟩ <;> rw [h2] <;> rfl

/-- Witness for C7. -/
theorem c7_witness :
    generateVehicleReport [] [] "ghost" 0 10 = .error "Vehicle not found" :=
  (c7_unknown_vehicle_fails_generically [] [] "ghost" 0 10 rfl).1

/-- C8 as stated is false: a request with a negative cash amount passes the
route validation of the Prisma handler and is stored, with the negative
value in the created row. -/
theorem c8_counterexample :
    (postWeeklyData [vehicleFix] [] reqNegative (some "manager-1") 7 1).1
      = .created (createdEntry reqNegative (some "manager-1") 7 1) ∧
    (postWeeklyData [vehicleFix] [] reqNegative (some "manager-1") 7 1).2
      = [createdEntry reqNegative (some "manager-1") 7 1] ∧
    reqNegative.cashCollected < 0 ∧
    (createdEntry reqNegative (some "manager-1") 7 1).cashCollected < 0 := by
  refine ⟨rfl, rfl, ?_, ?_⟩ <;> norm_num [reqNegative, createdEntry]

/-- C8 amended: negative monetary inputs pass the route validator chain
(which checks only numericness), so the Prisma handler stores them; only the
Mongoose schema enforces the non-negativity bounds, rejecting such a
document with ValidationError at save time, before the pre-save computation
and the write. -/
theorem c8_negative_input_prisma_accepts_mongoose_rejects
    (vehicles : List Vehicle) (store : List WeeklyDataRecord)
    (req : WeeklyDataRequest) (userId : Option String) (now : Int)
    (freshId : Nat) (v : Vehicle)
    (hneg : req.cashCollected < 0 ∨ req.onlineEarnings < 0 ∨
            req.dieselExpense < 0 ∨ req.tollsParking < 0 ∨
            req.maintenanceRepairs < 0 ∨ req.otherExpenses < 0)
    (hid : req.vehicleId ≠ "")
    (hv : findVehicle vehicles req.vehicleId = some v) :
    validateWeeklyDataBody req = true ∧
    (findExisting store req.vehicleId req.weekStartDate = none →
      postWeeklyData vehicles store req userId now freshId
        = (.created (createdEntry req userId now freshId),
           store ++ [createdEntry req userId now freshId])) ∧
    (∀ mstore : List MongooseWeeklyDoc,
      mongooseSaveNew mstore (newMongooseDoc req userId now)
        = .error "ValidationError") := by
  have hval : validateWeeklyDataBody req = true := by
    simp [validateWeeklyDataBody, bne_iff_ne, hid]
  refine ⟨hval, ?_, ?_⟩
  · intro hex
    simp [postWeeklyData, hval, hv, hex]
  · intro mstore
    have hbad : ¬ validateWeeklyDoc (newMongooseDoc req userId now) := by
      intro hok
      unfold validateWeeklyDoc at hok
      simp only [newMongooseDoc] at hok
      obtain ⟨h1, h2, _, h4, h5, h6, h7, _⟩ := hok
      rcases hneg with h | h | h | h | h | h <;> linarith
    simp [mongooseSaveNew, hbad]

/-- Witness for C8, at the request with cash collected -5. -/
theorem c8_witness :
    validateWeeklyDataBody reqNegative = true ∧
    mongooseSaveNew [] (newMongooseDoc reqNegative (some "manager-1") 7)
      = .error "ValidationError" := by
  have h := c8_negative_input_prisma_accepts_mongoose_rejects
    [vehicleFix] [] reqNegative (some "manager-1") 7 1 vehicleFix
    (Or.inl (by norm_num [reqNegative])) (by decide) rfl
  exact ⟨h.1, h.2.2 []⟩

/-- C9 as stated is false: a request whose week-end date precedes its
week-start date is accepted by the handler and creates an entry. -/
theorem c9_counterexample :
    reqBackwards.weekEndDate < reqBackwards.weekStartDate ∧
    (postWeeklyData [vehicleFix] [] reqBackwards (some "manager-1") 7 1).1
      = .created (createdEntry reqBackwards (some "manager-1") 7 1) ∧
    (postWeeklyData [vehicleFix] [] reqBackwards (some "manager-1") 7 1).2
      ≠ [] := by
  refine ⟨by norm_num [reqBackwards], rfl, ?_⟩
  show [createdEntry reqBackwards (some "manager-1") 7 1] ≠ []
  exact List.cons_ne_nil _ _

/-- C9 amended: the handler validates only that both dates are well formed;
it does not compare them, so a request with week-end earlier than week-start
is accepted and creates an entry carrying the inverted dates. -/
theorem c9_no_week_order_validation
    (vehicles : List Vehicle) (store : List WeeklyDataRecord)
    (req : WeeklyDataRequest) (userId : Option String) (now : Int)
    (freshId : Nat) (v : Vehicle)
    (horder : req.weekEndDate < req.weekStartDate)
    (hid : req.vehicleId ≠ "")
    (hv : findVehicle vehicles req.vehicleId = some v)
    (hex : findExisting store req.vehicleId req.weekStartDate = none) :
    postWeeklyData vehicles store req userId now freshId
      = (.created (createdEntry req userId now freshId),
         store ++ [createdEntry req userId now freshId]) ∧
    (createdEntry req userId now freshId).weekEndDate
      < (createdEntry req userId now freshId).weekStartDate := by
  constructor
  · simp [postWeeklyData, validateWeeklyDataBody, bne_iff_ne, hid, hv, hex]
  · exact horder

/-- Witness for C9, at the request with week 100 to 50. -/
theorem c9_witness :
    postWeeklyData [vehicleFix] [] reqBackwards (some "manager-1") 7 1
      = (.created (createdEntry reqBackwards (some "manager-1") 7 1),
         [] ++ [createdEntry reqBackwards (some "manager-1") 7 1]) ∧
    (createdEntry reqBackwards (some "manager-1") 7 1).weekEndDate
      < (createdEntry reqBackwards (some "manager-1") 7 1).weekStartDate := by
  exact c9_no_week_order_validation [vehicleFix] [] reqBackwards
    (some "manager-1") 7 1 vehicleFix (by norm_num [reqBackwards])
    (by decide) rfl rfl

/-- C10: the code contradicts the bounds its own schema declares.  A
heavy-loss week (revenue 100, deductions 300) passes schema validation,
because validation runs before the pre-save hook and checks the default
margin 0; the hook then computes margin -200 and the document is stored,
although the stored document itself violates the declared [-100, 100]
bounds. -/
theorem c10_margin_bound_bypassed :
    mongooseSaveNew [] (newMongooseDoc reqLoss (some "manager-1") 7)
      = .ok (preSaveCompute (newMongooseDoc reqLoss (some "manager-1") 7),
             [preSaveCompute (newMongooseDoc reqLoss (some "manager-1") 7)]) ∧
    (preSaveCompute (newMongooseDoc reqLoss (some "manager-1") 7)).profitMargin
      = -200 ∧
    ¬ (-100 : ℚ)
        ≤ (preSaveCompute (newMongooseDoc reqLoss (some "manager-1") 7)).profitMargin ∧
    ¬ validateWeeklyDoc (preSaveCompute (newMongooseDoc reqLoss (some "manager-1") 7)) := by
  have hok : validateWeeklyDoc (newMongooseDoc reqLoss (some "manager-1") 7) := by
    decide
  have hmargin :
      (preSaveCompute (newMongooseDoc reqLoss (some "manager-1") 7)).profitMargin
        = -200 := by
    simp only [preSaveCompute, newMongooseDoc, reqLoss]
    norm_num
  refine ⟨?_, hmargin, ?_, ?_⟩
  · simp [mongooseSaveNew, hok]
  · rw [hmargin]; norm_num
  · intro hval
    unfold validateWeeklyDoc at hval
    have := hval.2.2.2.2.2.2.2.2.1
    rw [hmargin] at this
    norm_num at this

end FleetManager
